import Mathlib

/-!
Verification of the Turn Lifecycle Orchestrator of CodexMonitor.

The development shallowly embeds the turn-command orchestrator
(`useThreadMessaging`: `sendMessageToThread`, `interruptTurn`, `startReview`)
and the turn event handlers (`useThreadTurnEvents`: `onTurnStarted`,
`onTurnCompleted`, `onTurnError`).  The thread state store behind the
`markProcessing` / `markReviewing` / `setActiveTurnId` /
`pushThreadErrorMessage` callbacks and the normalization helpers
(`extractRpcErrorMessage`, `asString`, `parseReviewTarget`) are not among the
provided sources; those primitives are modelled from the specification
(store mutations from section 4.1, the RPC envelope from section 6) and are
marked as such in their doc comments.  Asynchronous RPC resolution is made
explicit: each operation takes the eventual outcome of its `await` as an
`Except` argument, and the synchronous prefix of `sendMessageToThread` is a
separate function so that interleavings (interrupt before the start RPC
resolves) can be replayed.
-/

namespace CodexMonitor

/-- Role of a conversation item. -/
inductive Role where
  | user
  | assistant
  | system
deriving DecidableEq, Repr

/-- A message item in a thread's item sequence.  Generated ids and timestamps
are abstracted away; the claims only inspect roles and texts. -/
structure Item where
  role : Role
  text : String
deriving DecidableEq, Repr

/-- Per-thread derived status record, as in `threadStatusById` (spec section 3). -/
structure ThreadStatus where
  isProcessing : Bool := false
  hasUnread : Bool := false
  isReviewing : Bool := false
deriving DecidableEq, Repr

/-- A reference to a turn inside an RPC response (`turn.id`).  The id is
optional so that an absent or non-string field can be modelled;
`asString(turn?.id ?? "")` in the source yields `""` in that case. -/
structure TurnRef where
  id : Option String
deriving DecidableEq, Repr

/-- The `result` object of a start RPC response. -/
structure RpcResult where
  error : Option String := none
  turn : Option TurnRef := none
deriving DecidableEq, Repr

/-- Shape of a start-turn / start-review RPC response (spec section 6): an
error may sit at top level or under `result`; the turn may sit under `result`
or at top level. -/
structure RpcResponse where
  error : Option String := none
  result : Option RpcResult := none
  turn : Option TurnRef := none
deriving DecidableEq, Repr

/-- Modelled from the spec: `extractRpcErrorMessage` (utils/threadNormalize is
not among the provided sources) — per section 6, `error` present at top level
or nested under `result` signals failure. -/
def extractRpcErrorMessage (r : RpcResponse) : Option String :=
  match r.error with
  | some e => some e
  | none =>
    match r.result with
    | some res => res.error
    | none => none

/-- Turn object selection in `sendMessageToThread`:
`result = response.result ?? response` followed by
`turn = result?.turn ?? response?.turn`. -/
def responseTurn (r : RpcResponse) : Option TurnRef :=
  match r.result with
  | some res =>
    match res.turn with
    | some t => some t
    | none => r.turn
  | none => r.turn

/-- `asString(turn?.id ?? "")` — the empty string when the turn or its id is
absent, so an empty id is indistinguishable from a missing one. -/
def responseTurnId (r : RpcResponse) : String :=
  match responseTurn r with
  | some t => t.id.getD ""
  | none => ""

/-- The JS `text.trim()`: strip leading and trailing whitespace.  Implemented
over the character list (rather than with `String.trim`, whose well-founded
recursion the kernel cannot evaluate) so that concrete traces compute. -/
def jsTrim (s : String) : String :=
  ⟨((s.data.dropWhile Char.isWhitespace).reverse.dropWhile Char.isWhitespace).reverse⟩

/-- An outbound RPC issued by the orchestrator, recorded with its arguments. -/
inductive RpcCall where
  | startTurn (workspaceId threadId text : String) (images : List String)
  | interrupt (workspaceId threadId turnId : String)
  | review (workspaceId threadId target mode : String)
deriving DecidableEq, Repr

/-- Pointwise update of a string-keyed total map (a JS object whose reads fall
back to a default). -/
def upd {α : Type} (m : String → α) (k : String) (v : α) : String → α :=
  fun x => if x = k then v else m x

/-- The orchestrator-visible state: the thread-store maps together with the
shared pending-interrupt set (`pendingInterruptsRef`). -/
structure OrchState where
  threadExists : String → Bool
  status : String → ThreadStatus
  activeTurnId : String → Option String
  pending : String → Bool
  items : String → List Item
  lastActivity : String → Option Nat

/-- The initial state: no threads, nothing processing, nothing pending. -/
def emptyState : OrchState :=
  { threadExists := fun _ => false
    status := fun _ => {}
    activeTurnId := fun _ => none
    pending := fun _ => false
    items := fun _ => []
    lastActivity := fun _ => none }

/-- Modelled from the spec: store mutation set-processing-flag (section 4.1);
the reducer behind the `markProcessing` callback is not among the provided
sources. -/
def markProcessing (s : OrchState) (threadId : String) (b : Bool) : OrchState :=
  { s with status := upd s.status threadId { s.status threadId with isProcessing := b } }

/-- Modelled from the spec: store mutation set-reviewing-flag (section 4.1). -/
def markReviewing (s : OrchState) (threadId : String) (b : Bool) : OrchState :=
  { s with status := upd s.status threadId { s.status threadId with isReviewing := b } }

/-- Modelled from the spec: store mutation set-active-turn-id (section 4.1). -/
def setActiveTurnId (s : OrchState) (threadId : String) (turnId : Option String) : OrchState :=
  { s with activeTurnId := upd s.activeTurnId threadId turnId }

/-- Modelled from the spec: `pushThreadErrorMessage` appends a thread-scoped
error as a system-style item in the thread's item sequence (section 7). -/
def pushThreadErrorMessage (s : OrchState) (threadId message : String) : OrchState :=
  { s with items := upd s.items threadId (s.items threadId ++ [⟨Role.system, message⟩]) }

/-- Modelled from the spec: the `addAssistantMessage` store action appends an
assistant item (section 4.1, append-system/assistant-message). -/
def addAssistantMessage (s : OrchState) (threadId text : String) : OrchState :=
  { s with items := upd s.items threadId (s.items threadId ++ [⟨Role.assistant, text⟩]) }

/-- Modelled from the spec: the idempotent ensure-thread-exists store action
(section 4.1). -/
def ensureThread (s : OrchState) (workspaceId threadId : String) : OrchState :=
  { s with threadExists := upd s.threadExists threadId true }

/-- Modelled from the spec: upsert-item with a freshly generated id appends
(section 4.1: new ids append). -/
def upsertItem (s : OrchState) (threadId : String) (item : Item) : OrchState :=
  { s with items := upd s.items threadId (s.items threadId ++ [item]) }

/-- Modelled from the spec: the set-thread-timestamp store action together with
`recordThreadActivity` (both update the thread's last-activity time). -/
def setThreadTimestamp (s : OrchState) (threadId : String) (timestamp : Nat) : OrchState :=
  { s with lastActivity := upd s.lastActivity threadId (some timestamp) }

/-- `pendingInterruptsRef.current.add(threadId)`. -/
def addPendingInterrupt (s : OrchState) (threadId : String) : OrchState :=
  { s with pending := upd s.pending threadId true }

/-- `pendingInterruptsRef.current.delete(threadId)`. -/
def removePendingInterrupt (s : OrchState) (threadId : String) : OrchState :=
  { s with pending := upd s.pending threadId false }

/-- `onTurnStarted` (useThreadTurnEvents): ensure the thread, then either
consume a pending interrupt — issuing the interrupt RPC with the now-known
turn id when it is nonempty — or mark the thread processing and record the
turn id (skipped when the id is empty, mirroring `if (turnId)`). -/
def onTurnStarted (s : OrchState) (workspaceId threadId turnId : String) :
    OrchState × List RpcCall :=
  let s1 := ensureThread s workspaceId threadId
  if s1.pending threadId then
    let s2 := removePendingInterrupt s1 threadId
    if turnId ≠ "" then
      (s2, [RpcCall.interrupt workspaceId threadId turnId])
    else
      (s2, [])
  else
    let s2 := markProcessing s1 threadId true
    if turnId ≠ "" then
      (setActiveTurnId s2 threadId (some turnId), [])
    else
      (s2, [])

/-- `onTurnCompleted` (useThreadTurnEvents): clear processing, clear the active
turn id, and drop any pending interrupt, regardless of prior state. -/
def onTurnCompleted (s : OrchState) (workspaceId threadId turnId : String) : OrchState :=
  removePendingInterrupt
    (setActiveTurnId (markProcessing s threadId false) threadId none) threadId

/-- `onTurnError` (useThreadTurnEvents): a retryable error returns before any
mutation; a terminal one ensures the thread, clears the processing and
reviewing flags and the active turn id, and appends the failure message. -/
def onTurnError (s : OrchState) (workspaceId threadId turnId message : String)
    (willRetry : Bool) : OrchState :=
  if willRetry then s
  else
    let s1 := ensureThread s workspaceId threadId
    let s2 := markReviewing (markProcessing s1 threadId false) threadId false
    let s3 := setActiveTurnId s2 threadId none
    let text := if message ≠ "" then "Turn failed: " ++ message else "Turn failed."
    pushThreadErrorMessage s3 threadId text

/-- `interruptTurn` (useThreadMessaging): a no-op without an active workspace
and thread; otherwise optimistically stop locally (processing off, active turn
id cleared, stopped message appended), queue a pending interrupt when no turn
id is known, and fire the interrupt RPC with the known id or the placeholder
`"pending"`.  `rpcOutcome` is the eventual result of the awaited interrupt
RPC; the catch branch only logs, so both branches return the same state. -/
def interruptTurn (s : OrchState) (activeWorkspace activeThreadId : Option String)
    (rpcOutcome : Except String Unit) : OrchState × List RpcCall :=
  match activeWorkspace, activeThreadId with
  | some workspaceId, some threadId =>
    let activeTurn := s.activeTurnId threadId
    let turnId := activeTurn.getD "pending"
    let s1 := markProcessing s threadId false
    let s2 := setActiveTurnId s1 threadId none
    let s3 := addAssistantMessage s2 threadId "Session stopped."
    let s4 := if activeTurn.isNone then addPendingInterrupt s3 threadId else s3
    match rpcOutcome with
    | Except.ok _ => (s4, [RpcCall.interrupt workspaceId threadId turnId])
    | Except.error _ => (s4, [RpcCall.interrupt workspaceId threadId turnId])
  | _, _ => (s, [])

/-- Result of the synchronous prefix of `sendMessageToThread`: either an early
return with no RPC issued, or the optimistically updated state together with
the start RPC that was issued. -/
inductive SendStart where
  | notSent (s : OrchState)
  | sent (s : OrchState) (call : RpcCall)

/-- State component of a `SendStart`. -/
def sendStartState (r : SendStart) : OrchState :=
  match r with
  | SendStart.notSent s => s
  | SendStart.sent s _ => s

/-- Calls issued by the synchronous prefix of `sendMessageToThread`. -/
def sendStartCalls (r : SendStart) : List RpcCall :=
  match r with
  | SendStart.notSent _ => []
  | SendStart.sent _ call => [call]

/-- Optimistic-item and issue step of `sendMessageToThread`, after prompt
expansion: add the optimistic user item when the thread was already processing
in steer mode, record activity, mark processing and issue the start RPC. -/
def sendMessageIssue (s : OrchState) (workspaceId threadId finalText : String)
    (images : List String) (steerEnabled : Bool) (now : Nat) : SendStart :=
  let wasProcessing := (s.status threadId).isProcessing && steerEnabled
  let optimisticText :=
    if finalText ≠ "" then finalText
    else if images ≠ [] then "[image]" else ""
  let s1 :=
    if wasProcessing ∧ optimisticText ≠ "" then
      upsertItem s threadId ⟨Role.user, optimisticText⟩
    else s
  let s2 := setThreadTimestamp s1 threadId now
  let s3 := markProcessing s2 threadId true
  SendStart.sent s3 (RpcCall.startTurn workspaceId threadId finalText images)

/-- Synchronous prefix of `sendMessageToThread`, up to issuing the start RPC.
`expansion` stands for the result of `expandCustomPromptText`
(utils/customPrompts is not among the provided sources): `none` when no macro
applies, an error aborts before any network call, a success rewrites the
text. -/
def sendMessageStart (s : OrchState) (workspaceId threadId text : String)
    (images : List String) (skipPromptExpansion : Bool)
    (expansion : Option (Except String String)) (steerEnabled : Bool)
    (now : Nat) : SendStart :=
  let messageText := jsTrim text
  if messageText = "" ∧ images = [] then SendStart.notSent s
  else
    match (if skipPromptExpansion then none else expansion) with
    | some (Except.error e) =>
      SendStart.notSent (pushThreadErrorMessage s threadId e)
    | some (Except.ok t) =>
      sendMessageIssue s workspaceId threadId t images steerEnabled now
    | none =>
      sendMessageIssue s workspaceId threadId messageText images steerEnabled now

/-- Response-reconciliation phase of `sendMessageToThread`: the result of the
awaited start RPC, where `Except.error` models a rejected promise reaching the
catch block. -/
def sendMessageResolve (s : OrchState) (threadId : String)
    (outcome : Except String RpcResponse) : OrchState :=
  match outcome with
  | Except.error e =>
    pushThreadErrorMessage
      (setActiveTurnId (markProcessing s threadId false) threadId none) threadId e
  | Except.ok response =>
    match extractRpcErrorMessage response with
    | some rpcError =>
      pushThreadErrorMessage
        (setActiveTurnId (markProcessing s threadId false) threadId none)
        threadId ("Turn failed to start: " ++ rpcError)
    | none =>
      let turnId := responseTurnId response
      if turnId = "" then
        pushThreadErrorMessage
          (setActiveTurnId (markProcessing s threadId false) threadId none)
          threadId "Turn failed to start."
      else
        setActiveTurnId s threadId (some turnId)

/-- `sendMessageToThread`: the synchronous prefix followed by response
reconciliation, returning the RPC calls issued. -/
def sendMessageToThread (s : OrchState) (workspaceId threadId text : String)
    (images : List String) (skipPromptExpansion : Bool)
    (expansion : Option (Except String String)) (steerEnabled : Bool) (now : Nat)
    (outcome : Except String RpcResponse) : OrchState × List RpcCall :=
  match sendMessageStart s workspaceId threadId text images skipPromptExpansion
      expansion steerEnabled now with
  | SendStart.notSent s1 => (s1, [])
  | SendStart.sent s1 call => (sendMessageResolve s1 threadId outcome, [call])

/-- Modelled from the spec: `parseReviewTarget` "parses a review target from
free text" (utils/threadNormalize is not among the provided sources); the
target only flows into the review RPC payload and is never inspected by the
orchestrator. -/
def parseReviewTarget (text : String) : String :=
  jsTrim text

/-- `startReview` (useThreadMessaging).  `ensuredThread` stands for the result
of `ensureThreadForActiveWorkspace` (provided by the caller, not among the
sources); `outcome` is the eventual result of the awaited review RPC. -/
def startReview (s : OrchState) (activeWorkspace : Option String) (text : String)
    (ensuredThread : Option String) (outcome : Except String RpcResponse) :
    OrchState × List RpcCall :=
  match activeWorkspace with
  | none => (s, [])
  | some workspaceId =>
    if jsTrim text = "" then (s, [])
    else
      match ensuredThread with
      | none => (s, [])
      | some threadId =>
        let target := parseReviewTarget text
        let s1 := markReviewing (markProcessing s threadId true) threadId true
        let call := RpcCall.review workspaceId threadId target "inline"
        match outcome with
        | Except.error e =>
          (pushThreadErrorMessage
            (markReviewing (markProcessing s1 threadId false) threadId false)
            threadId e, [call])
        | Except.ok response =>
          match extractRpcErrorMessage response with
          | some rpcError =>
            (pushThreadErrorMessage
              (setActiveTurnId
                (markReviewing (markProcessing s1 threadId false) threadId false)
                threadId none)
              threadId ("Review failed to start: " ++ rpcError), [call])
          | none => (s1, [call])

/-- Number of interrupt RPC calls in `calls` that carry `turnId`. -/
def countInterruptsWith (calls : List RpcCall) (turnId : String) : Nat :=
  (calls.filter fun c =>
    match c with
    | RpcCall.interrupt _ _ t => t == turnId
    | _ => false).length

/-- The interrupt-before-start race replayed at concrete inputs: a message is
sent on an idle thread, the user interrupts before the start RPC resolves,
then the start RPC resolves with turn `"T"`, then `turn-started` arrives
carrying `"T"`. -/
def raceState1 : OrchState :=
  sendStartState (sendMessageStart emptyState "w1" "t1" "hello" [] true none false 0)

/-- State after the interrupt that precedes the start-RPC resolution. -/
def raceState2 : OrchState :=
  (interruptTurn raceState1 (some "w1") (some "t1") (Except.ok ())).1

/-- The start RPC's successful response carrying turn id `"T"`. -/
def raceResponse : RpcResponse :=
  ⟨none, some ⟨none, some ⟨some "T"⟩⟩, none⟩

/-- State after the start RPC resolves (its success continuation runs). -/
def raceState3 : OrchState :=
  sendMessageResolve raceState2 "t1" (Except.ok raceResponse)

/-- Final step: the `turn-started` event for turn `"T"` is handled. -/
def raceFinal : OrchState × List RpcCall :=
  onTurnStarted raceState3 "w1" "t1" "T"

/-- A review started successfully on an idle thread: the thread is processing
and reviewing while the review turn runs. -/
def reviewState : OrchState :=
  (startReview emptyState (some "w1") "diff HEAD~1" (some "t1")
    (Except.ok ⟨none, none, none⟩)).1

theorem upd_same {α : Type} (m : String → α) (k : String) (v : α) : upd m k v k = v := by
  simp [upd]

theorem upd_ne {α : Type} (m : String → α) (k x : String) (v : α) (h : x ≠ k) :
    upd m k v x = m x := by
  simp [upd, h]

theorem upd_of_lookup_eq {α : Type} (m : String → α) (k : String) (v : α) (h : m k = v) :
    upd m k v = m := by
  funext x
  by_cases hx : x = k
  · subst hx; simp [upd, h]
  · simp [upd, hx]

theorem OrchState.eq_of_fields (a b : OrchState)
    (h1 : a.threadExists = b.threadExists) (h2 : a.status = b.status)
    (h3 : a.activeTurnId = b.activeTurnId) (h4 : a.pending = b.pending)
    (h5 : a.items = b.items) (h6 : a.lastActivity = b.lastActivity) : a = b := by
  cases a
  cases b
  simp only at h1 h2 h3 h4 h5 h6
  subst h1 h2 h3 h4 h5 h6
  rfl

theorem ThreadStatus.clearProcessing_self (st : ThreadStatus) (h : st.isProcessing = false) :
    { st with isProcessing := false } = st := by
  cases st
  simp only at h
  simp [h]

/-- C5: a terminal turn-error (`willRetry = false`) ensures the thread exists,
clears the processing and reviewing flags and the active turn id, and appends
the thread-scoped message `"Turn failed: <message>"`, or `"Turn failed."` when
the message is empty. -/
theorem onTurnError_terminal_spec (s : OrchState) (workspaceId threadId turnId message : String) :
    (onTurnError s workspaceId threadId turnId message false).threadExists threadId = true ∧
    ((onTurnError s workspaceId threadId turnId message false).status threadId).isProcessing
      = false ∧
    ((onTurnError s workspaceId threadId turnId message false).status threadId).isReviewing
      = false ∧
    (onTurnError s workspaceId threadId turnId message false).activeTurnId threadId = none ∧
    (onTurnError s workspaceId threadId turnId message false).items threadId
      = s.items threadId ++
        [⟨Role.system, if message ≠ "" then "Turn failed: " ++ message else "Turn failed."⟩] := by
  refine ⟨?_, ?_, ?_, ?_, ?_⟩ <;>
    simp [onTurnError, ensureThread, markProcessing, markReviewing, setActiveTurnId,
      pushThreadErrorMessage, upd]

/-- C6: a turn-error event with `willRetry = true` returns before any mutation,
leaving the whole state — processing and reviewing flags, active turn id,
pending-interrupt set and item sequences — exactly unchanged. -/
theorem onTurnError_retry_frame (s : OrchState) (workspaceId threadId turnId message : String) :
    onTurnError s workspaceId threadId turnId message true = s := rfl

/-- C7: `onTurnCompleted` unconditionally clears the processing flag, the
active turn id and the pending-interrupt entry; on an already idle thread it
is a no-op, and handling the same completion twice equals handling it once. -/
theorem onTurnCompleted_idempotent (s : OrchState) (workspaceId threadId turnId : String) :
    ((onTurnCompleted s workspaceId threadId turnId).status threadId).isProcessing = false ∧
    (onTurnCompleted s workspaceId threadId turnId).activeTurnId threadId = none ∧
    (onTurnCompleted s workspaceId threadId turnId).pending threadId = false ∧
    ((s.status threadId).isProcessing = false → s.activeTurnId threadId = none →
      s.pending threadId = false → onTurnCompleted s workspaceId threadId turnId = s) ∧
    onTurnCompleted (onTurnCompleted s workspaceId threadId turnId) workspaceId threadId turnId
      = onTurnCompleted s workspaceId threadId turnId := by
  have hnoop : ∀ u : OrchState, (u.status threadId).isProcessing = false →
      u.activeTurnId threadId = none → u.pending threadId = false →
      onTurnCompleted u workspaceId threadId turnId = u := by
    intro u h1 h2 h3
    apply OrchState.eq_of_fields <;>
      simp only [onTurnCompleted, removePendingInterrupt, setActiveTurnId, markProcessing]
    · rw [ThreadStatus.clearProcessing_self _ h1, upd_of_lookup_eq _ _ _ rfl]
    · exact upd_of_lookup_eq _ _ _ h2
    · exact upd_of_lookup_eq _ _ _ h3
  have hproc : ((onTurnCompleted s workspaceId threadId turnId).status threadId).isProcessing
      = false := by
    simp [onTurnCompleted, removePendingInterrupt, setActiveTurnId, markProcessing, upd]
  have hact : (onTurnCompleted s workspaceId threadId turnId).activeTurnId threadId = none := by
    simp [onTurnCompleted, removePendingInterrupt, setActiveTurnId, markProcessing, upd]
  have hpend : (onTurnCompleted s workspaceId threadId turnId).pending threadId = false := by
    simp [onTurnCompleted, removePendingInterrupt, setActiveTurnId, markProcessing, upd]
  exact ⟨hproc, hact, hpend, hnoop s, hnoop _ hproc hact hpend⟩

/-- Witness for C7 at a concrete input: a completion delivered to the idle
empty state changes nothing. -/
theorem onTurnCompleted_idempotent_witness :
    onTurnCompleted emptyState "w1" "t1" "r1" = emptyState :=
  (onTurnCompleted_idempotent emptyState "w1" "t1" "r1").2.2.2.1 rfl rfl rfl

/-- C10: with no active workspace or no active thread selected, `interruptTurn`
returns without changing any state and without issuing any RPC. -/
theorem interruptTurn_inactive_noop (s : OrchState) (w t : Option String)
    (o : Except String Unit) (h : w = none ∨ t = none) :
    interruptTurn s w t o = (s, []) := by
  rcases h with h | h
  · subst h
    cases t <;> rfl
  · subst h
    cases w <;> rfl

/-- Witness for C10 at a concrete input. -/
theorem interruptTurn_inactive_noop_witness :
    interruptTurn emptyState none (some "t1") (Except.ok ()) = (emptyState, []) :=
  interruptTurn_inactive_noop emptyState none (some "t1") (Except.ok ()) (Or.inl rfl)

/-- C8: interrupt is fire-and-forget — a failing interrupt RPC leaves exactly
the state a successful one leaves (the catch branch only logs): the thread is
not processing, the active turn id is null and the appended
`"Session stopped."` message is still present. -/
theorem interruptTurn_fireAndForget (s : OrchState) (workspaceId threadId e : String) :
    (interruptTurn s (some workspaceId) (some threadId) (Except.error e)).1
      = (interruptTurn s (some workspaceId) (some threadId) (Except.ok ())).1 ∧
    ((interruptTurn s (some workspaceId) (some threadId) (Except.error e)).1.status
      threadId).isProcessing = false ∧
    (interruptTurn s (some workspaceId) (some threadId) (Except.error e)).1.activeTurnId
      threadId = none ∧
    (interruptTurn s (some workspaceId) (some threadId) (Except.error e)).1.items threadId
      = s.items threadId ++ [⟨Role.assistant, "Session stopped."⟩] := by
  refine ⟨rfl, ?_, ?_, ?_⟩ <;>
    cases hor : s.activeTurnId threadId <;>
      simp [interruptTurn, markProcessing, setActiveTurnId, addAssistantMessage,
        addPendingInterrupt, hor, upd]

/-- C9: `onTurnStarted` with an empty turn id: in the pending-interrupt branch
it removes the pending entry and issues no interrupt RPC at all; otherwise it
marks the thread processing but leaves its active turn id unchanged, so no
empty id is ever recorded. -/
theorem onTurnStarted_emptyTurnId (s : OrchState) (workspaceId threadId : String) :
    (s.pending threadId = true →
      (onTurnStarted s workspaceId threadId "").2 = [] ∧
      (onTurnStarted s workspaceId threadId "").1.pending threadId = false ∧
      (onTurnStarted s workspaceId threadId "").1.activeTurnId = s.activeTurnId ∧
      (onTurnStarted s workspaceId threadId "").1.status = s.status) ∧
    (s.pending threadId = false →
      (onTurnStarted s workspaceId threadId "").2 = [] ∧
      ((onTurnStarted s workspaceId threadId "").1.status threadId).isProcessing = true ∧
      (onTurnStarted s workspaceId threadId "").1.activeTurnId = s.activeTurnId) := by
  constructor <;> intro h <;>
    simp [onTurnStarted, ensureThread, removePendingInterrupt, markProcessing,
      setActiveTurnId, h, upd]

/-- Witness for C9: both branches applied at concrete states — a thread with a
queued pending interrupt, and the idle empty state. -/
theorem onTurnStarted_emptyTurnId_witness :
    ((onTurnStarted (addPendingInterrupt emptyState "t1") "w1" "t1" "").2 = [] ∧
      (onTurnStarted (addPendingInterrupt emptyState "t1") "w1" "t1" "").1.pending "t1"
        = false ∧
      (onTurnStarted (addPendingInterrupt emptyState "t1") "w1" "t1" "").1.activeTurnId
        = (addPendingInterrupt emptyState "t1").activeTurnId ∧
      (onTurnStarted (addPendingInterrupt emptyState "t1") "w1" "t1" "").1.status
        = (addPendingInterrupt emptyState "t1").status) ∧
    ((onTurnStarted emptyState "w1" "t1" "").2 = [] ∧
      ((onTurnStarted emptyState "w1" "t1" "").1.status "t1").isProcessing = true ∧
      (onTurnStarted emptyState "w1" "t1" "").1.activeTurnId = emptyState.activeTurnId) :=
  ⟨(onTurnStarted_emptyTurnId (addPendingInterrupt emptyState "t1") "w1" "t1").1
      (by simp [addPendingInterrupt, emptyState, upd]),
    (onTurnStarted_emptyTurnId emptyState "w1" "t1").2 rfl⟩

/-- C4: sendMessage reconciliation — a rejected start RPC, an error embedded at
top level or under `result`, or a missing turn id in the response each revert
the processing flag, clear the active turn id and append a thread-scoped error
item; a response carrying a turn id and no error records that server-issued id
as the thread's active turn. -/
theorem sendMessage_reconciliation (s : OrchState) (threadId : String) :
    (∀ e : String,
      ((sendMessageResolve s threadId (Except.error e)).status threadId).isProcessing = false ∧
      (sendMessageResolve s threadId (Except.error e)).activeTurnId threadId = none ∧
      (sendMessageResolve s threadId (Except.error e)).items threadId
        = s.items threadId ++ [⟨Role.system, e⟩]) ∧
    (∀ response m, extractRpcErrorMessage response = some m →
      ((sendMessageResolve s threadId (Except.ok response)).status threadId).isProcessing
        = false ∧
      (sendMessageResolve s threadId (Except.ok response)).activeTurnId threadId = none ∧
      (sendMessageResolve s threadId (Except.ok response)).items threadId
        = s.items threadId ++ [⟨Role.system, "Turn failed to start: " ++ m⟩]) ∧
    (∀ response, extractRpcErrorMessage response = none → responseTurnId response = "" →
      ((sendMessageResolve s threadId (Except.ok response)).status threadId).isProcessing
        = false ∧
      (sendMessageResolve s threadId (Except.ok response)).activeTurnId threadId = none ∧
      (sendMessageResolve s threadId (Except.ok response)).items threadId
        = s.items threadId ++ [⟨Role.system, "Turn failed to start."⟩]) ∧
    (∀ response, extractRpcErrorMessage response = none → responseTurnId response ≠ "" →
      (sendMessageResolve s threadId (Except.ok response)).activeTurnId threadId
        = some (responseTurnId response)) := by
  refine ⟨fun e => ?_, fun response m h => ?_, fun response h h2 => ?_,
    fun response h h2 => ?_⟩
  · simp [sendMessageResolve, markProcessing, setActiveTurnId, pushThreadErrorMessage, upd]
  · simp [sendMessageResolve, h, markProcessing, setActiveTurnId, pushThreadErrorMessage,
      upd]
  · simp [sendMessageResolve, h, h2, markProcessing, setActiveTurnId,
      pushThreadErrorMessage, upd]
  · simp [sendMessageResolve, h, h2, setActiveTurnId, upd]

/-- Witness for C4: the four reconciliation branches applied at concrete
responses from the empty state. -/
theorem sendMessage_reconciliation_witness :
    (((sendMessageResolve emptyState "t1" (Except.error "boom")).status "t1").isProcessing
        = false ∧
      (sendMessageResolve emptyState "t1" (Except.error "boom")).activeTurnId "t1" = none ∧
      (sendMessageResolve emptyState "t1" (Except.error "boom")).items "t1"
        = emptyState.items "t1" ++ [⟨Role.system, "boom"⟩]) ∧
    (((sendMessageResolve emptyState "t1"
          (Except.ok ⟨some "bad", none, none⟩)).status "t1").isProcessing = false ∧
      (sendMessageResolve emptyState "t1"
          (Except.ok ⟨some "bad", none, none⟩)).activeTurnId "t1" = none ∧
      (sendMessageResolve emptyState "t1"
          (Except.ok ⟨some "bad", none, none⟩)).items "t1"
        = emptyState.items "t1" ++ [⟨Role.system, "Turn failed to start: bad"⟩]) ∧
    (((sendMessageResolve emptyState "t1"
          (Except.ok ⟨none, none, none⟩)).status "t1").isProcessing = false ∧
      (sendMessageResolve emptyState "t1"
          (Except.ok ⟨none, none, none⟩)).activeTurnId "t1" = none ∧
      (sendMessageResolve emptyState "t1"
          (Except.ok ⟨none, none, none⟩)).items "t1"
        = emptyState.items "t1" ++ [⟨Role.system, "Turn failed to start."⟩]) ∧
    (sendMessageResolve emptyState "t1"
        (Except.ok ⟨none, some ⟨none, some ⟨some "turn-1"⟩⟩, none⟩)).activeTurnId "t1"
      = some (responseTurnId ⟨none, some ⟨none, some ⟨some "turn-1"⟩⟩, none⟩) :=
  ⟨(sendMessage_reconciliation emptyState "t1").1 "boom",
    (sendMessage_reconciliation emptyState "t1").2.1 ⟨some "bad", none, none⟩ "bad" rfl,
    (sendMessage_reconciliation emptyState "t1").2.2.1 ⟨none, none, none⟩ rfl rfl,
    (sendMessage_reconciliation emptyState "t1").2.2.2
      ⟨none, some ⟨none, some ⟨some "turn-1"⟩⟩, none⟩ rfl (by decide)⟩


/-- C1 counterexample: in the interrupt-before-start race the start-RPC success
continuation still records the server turn id, and the pending branch of
`onTurnStarted` never clears it — so `"T"` is observed recorded as the active
turn and the end state has active-turn-id `"T"`, not null, refuting the claim
(the thread does end not-processing, and `turn-started` does issue exactly one
interrupt RPC carrying `"T"`). -/
theorem interruptRace_counterexample :
    raceState3.activeTurnId "t1" = some "T" ∧
    (raceState3.status "t1").isProcessing = false ∧
    raceFinal.1.activeTurnId "t1" = some "T" ∧
    ¬ raceFinal.1.activeTurnId "t1" = none ∧
    (raceFinal.1.status "t1").isProcessing = false ∧
    raceFinal.2 = [RpcCall.interrupt "w1" "t1" "T"] := by
  decide

/-- C1 as amended: in the interrupt-before-start race the end state has the
thread not processing and exactly one interrupt RPC call carrying the turn id
`T` (issued when `turn-started` arrives), and the thread is never observed
processing after the interrupt — but the active-turn-id ends as `T`, not null:
the start-RPC success continuation records `T` after the interrupt and nothing
clears it, and an additional interrupt RPC carrying the placeholder id
`"pending"` is made at interrupt time. -/
theorem interruptRace_amended (s : OrchState) (workspaceId threadId text turnIdT : String)
    (now : Nat) (o : Except String Unit)
    (hT : turnIdT ≠ "") (hTp : turnIdT ≠ "pending")
    (hactive : s.activeTurnId threadId = none)
    (htext : ¬ jsTrim text = "") :
    let started := sendMessageStart s workspaceId threadId text [] true none false now
    let s1 := sendStartState started
    let interrupted := interruptTurn s1 (some workspaceId) (some threadId) o
    let s3 := sendMessageResolve interrupted.1 threadId
      (Except.ok ⟨none, some ⟨none, some ⟨some turnIdT⟩⟩, none⟩)
    let final := onTurnStarted s3 workspaceId threadId turnIdT
    s1.activeTurnId threadId = none ∧
    s3.activeTurnId threadId = some turnIdT ∧
    (s3.status threadId).isProcessing = false ∧
    final.1.activeTurnId threadId = some turnIdT ∧
    (final.1.status threadId).isProcessing = false ∧
    interrupted.2 = [RpcCall.interrupt workspaceId threadId "pending"] ∧
    countInterruptsWith (sendStartCalls started ++ interrupted.2 ++ final.2) turnIdT = 1 := by
  have hstart : sendMessageStart s workspaceId threadId text [] true none false now
      = sendMessageIssue s workspaceId threadId (jsTrim text) [] false now := by
    simp [sendMessageStart, htext]
  have hs1act : (sendStartState (sendMessageIssue s workspaceId threadId (jsTrim text) []
      false now)).activeTurnId = s.activeTurnId := by
    simp [sendMessageIssue, sendStartState, upsertItem, setThreadTimestamp, markProcessing]
  have hintr :
      interruptTurn
          (sendStartState (sendMessageIssue s workspaceId threadId (jsTrim text) [] false now))
          (some workspaceId) (some threadId) o
        = (addPendingInterrupt
            (addAssistantMessage
              (setActiveTurnId
                (markProcessing
                  (sendStartState
                    (sendMessageIssue s workspaceId threadId (jsTrim text) [] false now))
                  threadId false)
                threadId none)
              threadId "Session stopped.") threadId,
          [RpcCall.interrupt workspaceId threadId "pending"]) := by
    have hu : (sendStartState (sendMessageIssue s workspaceId threadId (jsTrim text) [] false
        now)).activeTurnId threadId = none := by
      rw [hs1act]
      exact hactive
    cases o <;> simp [interruptTurn, hu]
  have hresolve : ∀ u : OrchState,
      sendMessageResolve u threadId
          (Except.ok ⟨none, some ⟨none, some ⟨some turnIdT⟩⟩, none⟩)
        = setActiveTurnId u threadId (some turnIdT) := by
    intro u
    simp [sendMessageResolve, extractRpcErrorMessage, responseTurnId, responseTurn, hT]
  have hstarted : ∀ u : OrchState, u.pending threadId = true →
      onTurnStarted u workspaceId threadId turnIdT
        = (removePendingInterrupt (ensureThread u workspaceId threadId) threadId,
          [RpcCall.interrupt workspaceId threadId turnIdT]) := by
    intro u hu
    simp [onTurnStarted, ensureThread, hu, hT]
  simp only [hstart, hintr, hresolve]
  rw [hstarted _ (by
    simp [setActiveTurnId, addPendingInterrupt, addAssistantMessage, markProcessing, upd])]
  have hne : (("pending" : String) == turnIdT) = false :=
    beq_eq_false_iff_ne.mpr (Ne.symm hTp)
  refine ⟨?_, ?_, ?_, ?_, ?_, trivial, ?_⟩
  · rw [hs1act]
    exact hactive
  · simp [setActiveTurnId, upd]
  · simp [setActiveTurnId, addPendingInterrupt, addAssistantMessage, markProcessing, upd]
  · simp [removePendingInterrupt, ensureThread, setActiveTurnId, upd]
  · simp [removePendingInterrupt, ensureThread, setActiveTurnId, addPendingInterrupt,
      addAssistantMessage, markProcessing, upd]
  · simp [sendMessageIssue, sendStartCalls, countInterruptsWith, hne]

/-- Witness for the amended C1 at concrete inputs. -/
theorem interruptRace_amended_witness :
    (let started := sendMessageStart emptyState "w1" "t1" "hello" [] true none false 0
     let s1 := sendStartState started
     let interrupted := interruptTurn s1 (some "w1") (some "t1") (Except.ok ())
     let s3 := sendMessageResolve interrupted.1 "t1"
       (Except.ok ⟨none, some ⟨none, some ⟨some "T"⟩⟩, none⟩)
     let final := onTurnStarted s3 "w1" "t1" "T"
     s1.activeTurnId "t1" = none ∧
     s3.activeTurnId "t1" = some "T" ∧
     (s3.status "t1").isProcessing = false ∧
     final.1.activeTurnId "t1" = some "T" ∧
     (final.1.status "t1").isProcessing = false ∧
     interrupted.2 = [RpcCall.interrupt "w1" "t1" "pending"] ∧
     countInterruptsWith (sendStartCalls started ++ interrupted.2 ++ final.2) "T" = 1) :=
  interruptRace_amended emptyState "w1" "t1" "hello" "T" 0 (Except.ok ())
    (by decide) (by decide) rfl (by decide)

/-- C2 counterexample: `interruptTurn` on a processing thread with no known
turn id does record the pending interrupt, but it still issues an interrupt
RPC — carrying the placeholder turn id `"pending"` — so the claim that no
interrupt RPC is issued in this case is false. -/
theorem pendingInterruptSet_counterexample :
    (interruptTurn (markProcessing emptyState "t1" true) (some "w1") (some "t1")
        (Except.ok ())).2 = [RpcCall.interrupt "w1" "t1" "pending"] ∧
    ¬ (interruptTurn (markProcessing emptyState "t1" true) (some "w1") (some "t1")
        (Except.ok ())).2 = [] ∧
    (interruptTurn (markProcessing emptyState "t1" true) (some "w1") (some "t1")
        (Except.ok ())).1.pending "t1" = true := by
  decide

/-- C2 as amended: when no turn id is known for the active thread,
`interruptTurn` records the thread id in the pending-interrupt set, immediately
sets the thread to not-processing and appends the stopped message — but it
still issues one interrupt RPC carrying the placeholder turn id `"pending"`
rather than no RPC at all. -/
theorem pendingInterruptSet_amended (s : OrchState) (workspaceId threadId : String)
    (o : Except String Unit) (h : s.activeTurnId threadId = none) :
    (interruptTurn s (some workspaceId) (some threadId) o).1.pending threadId = true ∧
    ((interruptTurn s (some workspaceId) (some threadId) o).1.status
      threadId).isProcessing = false ∧
    (interruptTurn s (some workspaceId) (some threadId) o).1.items threadId
      = s.items threadId ++ [⟨Role.assistant, "Session stopped."⟩] ∧
    (interruptTurn s (some workspaceId) (some threadId) o).2
      = [RpcCall.interrupt workspaceId threadId "pending"] := by
  cases o <;>
    simp [interruptTurn, h, addPendingInterrupt, addAssistantMessage, setActiveTurnId,
      markProcessing, upd]

/-- Witness for the amended C2 at a concrete input. -/
theorem pendingInterruptSet_amended_witness :
    (interruptTurn emptyState (some "w1") (some "t1") (Except.ok ())).1.pending "t1"
        = true ∧
    ((interruptTurn emptyState (some "w1") (some "t1") (Except.ok ())).1.status
      "t1").isProcessing = false ∧
    (interruptTurn emptyState (some "w1") (some "t1") (Except.ok ())).1.items "t1"
      = emptyState.items "t1" ++ [⟨Role.assistant, "Session stopped."⟩] ∧
    (interruptTurn emptyState (some "w1") (some "t1") (Except.ok ())).2
      = [RpcCall.interrupt "w1" "t1" "pending"] :=
  pendingInterruptSet_amended emptyState "w1" "t1" (Except.ok ()) rfl

/-- C3 counterexample: start a review on an idle thread (both flags set), then
deliver `turn-completed` — the status keeps `isReviewing = true` while
`isProcessing = false`; interrupting instead of completing gives the same
violation.  The claimed invariant `isReviewing implies isProcessing` therefore
fails after completing or interrupting a review turn. -/
theorem reviewingInvariant_counterexample :
    (reviewState.status "t1").isProcessing = true ∧
    (reviewState.status "t1").isReviewing = true ∧
    ((onTurnCompleted reviewState "w1" "t1" "r1").status "t1").isReviewing = true ∧
    ((onTurnCompleted reviewState "w1" "t1" "r1").status "t1").isProcessing = false ∧
    ((interruptTurn reviewState (some "w1") (some "t1") (Except.ok ())).1.status
      "t1").isReviewing = true ∧
    ((interruptTurn reviewState (some "w1") (some "t1") (Except.ok ())).1.status
      "t1").isProcessing = false := by
  decide

/-- C3 as amended: `startReview` establishes the invariant by setting the
processing and reviewing flags together, and a terminal turn-error clears both
together; but `onTurnCompleted` and `interruptTurn` clear only the processing
flag and leave the reviewing flag unchanged, so after completing or
interrupting a review turn the status shows `isReviewing = true` with
`isProcessing = false`. -/
theorem reviewingInvariant_amended (s : OrchState)
    (workspaceId threadId turnId text message : String) (o : Except String Unit)
    (response : RpcResponse)
    (hok : extractRpcErrorMessage response = none)
    (htext : ¬ jsTrim text = "") :
    (((startReview s (some workspaceId) text (some threadId)
          (Except.ok response)).1.status threadId).isProcessing = true ∧
      ((startReview s (some workspaceId) text (some threadId)
          (Except.ok response)).1.status threadId).isReviewing = true) ∧
    (((onTurnCompleted s workspaceId threadId turnId).status threadId).isProcessing
        = false ∧
      ((onTurnCompleted s workspaceId threadId turnId).status threadId).isReviewing
        = (s.status threadId).isReviewing) ∧
    (((interruptTurn s (some workspaceId) (some threadId) o).1.status
          threadId).isProcessing = false ∧
      ((interruptTurn s (some workspaceId) (some threadId) o).1.status
          threadId).isReviewing = (s.status threadId).isReviewing) ∧
    (((onTurnError s workspaceId threadId turnId message false).status
          threadId).isProcessing = false ∧
      ((onTurnError s workspaceId threadId turnId message false).status
          threadId).isReviewing = false) := by
  refine ⟨?_, ?_, ?_, ?_⟩
  · constructor <;>
      simp [startReview, htext, hok, markProcessing, markReviewing, upd]
  · constructor <;>
      simp [onTurnCompleted, removePendingInterrupt, setActiveTurnId, markProcessing, upd]
  · constructor <;>
      cases o <;> cases hact : s.activeTurnId threadId <;>
        simp [interruptTurn, hact, addPendingInterrupt, addAssistantMessage,
          setActiveTurnId, markProcessing, upd]
  · constructor <;>
      simp [onTurnError, ensureThread, markProcessing, markReviewing, setActiveTurnId,
        pushThreadErrorMessage, upd]

/-- Witness for the amended C3 at concrete inputs. -/
theorem reviewingInvariant_amended_witness :
    (((startReview emptyState (some "w1") "diff HEAD~1" (some "t1")
          (Except.ok ⟨none, none, none⟩)).1.status "t1").isProcessing = true ∧
      ((startReview emptyState (some "w1") "diff HEAD~1" (some "t1")
          (Except.ok ⟨none, none, none⟩)).1.status "t1").isReviewing = true) ∧
    (((onTurnCompleted emptyState "w1" "t1" "r1").status "t1").isProcessing = false ∧
      ((onTurnCompleted emptyState "w1" "t1" "r1").status "t1").isReviewing
        = (emptyState.status "t1").isReviewing) ∧
    (((interruptTurn emptyState (some "w1") (some "t1") (Except.ok ())).1.status
          "t1").isProcessing = false ∧
      ((interruptTurn emptyState (some "w1") (some "t1") (Except.ok ())).1.status
          "t1").isReviewing = (emptyState.status "t1").isReviewing) ∧
    (((onTurnError emptyState "w1" "t1" "r1" "m" false).status "t1").isProcessing
        = false ∧
      ((onTurnError emptyState "w1" "t1" "r1" "m" false).status "t1").isReviewing
        = false) :=
  reviewingInvariant_amended emptyState "w1" "t1" "r1" "diff HEAD~1" "m"
    (Except.ok ()) ⟨none, none, none⟩ rfl (by decide)

end CodexMonitor
